import Mathlib

/-!
Shallow embedding of the python-boilerplate-core Result library.

The library lives in src/result: two frozen dataclass variants _Ok and _Fail
(aliased Ok / Fail) under an abstract base _Result, a singleton absence marker
_Nothing (alias Nothing) in nothing.py, guard predicates in guards/base.py and
free-function combinators in utils/helpers.py.

Python is dynamically typed, so the embedding works over a universe PyVal of
the runtime values the library manipulates: None, booleans, integers, strings,
lists, Ok/Fail instances and the Nothing singleton.  Operations that can raise
a Python exception return Except PyErr.
-/

/-- The Python exception classes the library can raise: TypeError (strict
extractor, hashing an unhashable value), AttributeError (attribute or method
lookup on an object that lacks it), RuntimeError (dereferencing Nothing). -/
inductive PyErr where
  | typeError
  | attributeError
  | runtimeError
deriving DecidableEq, Repr

/-- Universe of Python runtime values relevant to the library: None, bool,
int, str, list, the two Result variants _Ok / _Fail (each holding exactly one
payload, mirroring the frozen dataclasses in base.py), and the Nothing
singleton from nothing.py. -/
inductive PyVal where
  | none : PyVal
  | bool : Bool → PyVal
  | int : Int → PyVal
  | str : String → PyVal
  | list : List PyVal → PyVal
  | ok : PyVal → PyVal
  | fail : PyVal → PyVal
  | nothingObj : PyVal

mutual

/-- Python equality (the == operator) on the embedded value universe.
_Ok.__eq__ returns isinstance(other, Ok) and self.value == other.value;
_Fail.__eq__ is symmetric with the Fail class (base.py lines 96-106 and
203-213); comparing an Ok/Fail with anything else falls back to False.
Python compares bool with int numerically (True == 1).  The _Nothing frozen
dataclass compares equal only to the Nothing singleton itself. -/
def pyEq : PyVal → PyVal → Bool
  | PyVal.none, PyVal.none => true
  | PyVal.bool a, PyVal.bool b => a == b
  | PyVal.bool a, PyVal.int n => (if a then (1 : Int) else 0) == n
  | PyVal.int n, PyVal.bool b => n == (if b then (1 : Int) else 0)
  | PyVal.int a, PyVal.int b => a == b
  | PyVal.str a, PyVal.str b => a == b
  | PyVal.list xs, PyVal.list ys => pyEqList xs ys
  | PyVal.ok a, PyVal.ok b => pyEq a b
  | PyVal.fail a, PyVal.fail b => pyEq a b
  | PyVal.nothingObj, PyVal.nothingObj => true
  | _, _ => false

/-- Python list equality: element-wise ==, equal lengths required. -/
def pyEqList : List PyVal → List PyVal → Bool
  | [], [] => true
  | x :: xs, y :: ys => pyEq x y && pyEqList xs ys
  | _, _ => false

end

/-- Stand-in for CPython's hash of a 2-tuple from the hashes of its parts;
only the shape hash((tag, value)) matters to the claims, not the mixing. -/
def tupleMix (ht hv : Int) : Int := ht * 1000003 + hv

/-- Stand-in for CPython's hash of a string. -/
def strHash (s : String) : Int :=
  Int.ofNat (s.foldl (fun h c => (h * 31 + c.toNat) % 1000000007) 7)

/-- Model of Python's built-in hash on the embedded universe.  Lists are
unhashable (TypeError).  hash(True) = 1, hash(False) = 0, hash of an int is
itself (modulo details irrelevant here).  An Ok or Fail appearing as a value
hashes through its own __hash__, which is hash((True, self.value)) for BOTH
variants (base.py lines 122-132 and 229-239). -/
def pyHash : PyVal → Except PyErr Int
  | PyVal.none => Except.ok 5740354
  | PyVal.bool b => Except.ok (if b then 1 else 0)
  | PyVal.int n => Except.ok n
  | PyVal.str s => Except.ok (strHash s)
  | PyVal.list _ => Except.error PyErr.typeError
  | PyVal.ok v => (pyHash v).map (fun h => tupleMix 1 h)
  | PyVal.fail v => (pyHash v).map (fun h => tupleMix 1 h)
  | PyVal.nothingObj => Except.ok 947

/-- _Ok.__hash__ (base.py line 132): hash((True, self.value)); hash(True) is 1. -/
def Ok_hash (value : PyVal) : Except PyErr Int :=
  (pyHash value).map (fun h => tupleMix 1 h)

/-- _Fail.__hash__ (base.py line 239): also hash((True, self.value)) — the
source uses the tag True in the Fail variant as well. -/
def Fail_hash (value : PyVal) : Except PyErr Int :=
  (pyHash value).map (fun h => tupleMix 1 h)

/-- isinstance(x, _Result): true exactly for instances of the two variant
classes _Ok and _Fail. -/
def isResultInstance : PyVal → Bool
  | PyVal.ok _ => true
  | PyVal.fail _ => true
  | _ => false

/-- Attribute read x.value: present on Ok and Fail (the payload) and on the
Nothing singleton (class attribute value = None, nothing.py line 16); every
other value raises AttributeError. -/
def getValueAttr : PyVal → Except PyErr PyVal
  | PyVal.ok v => Except.ok v
  | PyVal.fail v => Except.ok v
  | PyVal.nothingObj => Except.ok PyVal.none
  | _ => Except.error PyErr.attributeError

/-- Method call r.isOk(): _Ok.isOk returns True, _Fail.isOk returns False;
any other receiver lacks the method and raises AttributeError. -/
def callIsOk : PyVal → Except PyErr Bool
  | PyVal.ok _ => Except.ok true
  | PyVal.fail _ => Except.ok false
  | _ => Except.error PyErr.attributeError

/-- Method call r.isFail(): _Ok.isFail returns False, _Fail.isFail returns
True; any other receiver raises AttributeError. -/
def callIsFail : PyVal → Except PyErr Bool
  | PyVal.ok _ => Except.ok false
  | PyVal.fail _ => Except.ok true
  | _ => Except.error PyErr.attributeError

/-- guards/base.py is_result: isinstance(result, ResultInstance). -/
def is_result (result : PyVal) : Bool := isResultInstance result

/-- guards/base.py is_ok: delegates to result.isOk(). -/
def is_ok (result : PyVal) : Except PyErr Bool := callIsOk result

/-- guards/base.py is_fail: delegates to result.isFail(). -/
def is_fail (result : PyVal) : Except PyErr Bool := callIsFail result

/-- helpers.py result_ok: wraps the value in an Ok. -/
def result_ok (value : PyVal) : PyVal := PyVal.ok value

/-- helpers.py result_fail: wraps the value in a Fail. -/
def result_fail (value : PyVal) : PyVal := PyVal.fail value

/-- helpers.py result_equality: payload == payload when both arguments are Ok
or both are Fail, False for every other combination. -/
def result_equality (result otherResult : PyVal) : Bool :=
  match result, otherResult with
  | PyVal.ok a, PyVal.ok b => pyEq a b
  | PyVal.fail a, PyVal.fail b => pyEq a b
  | _, _ => false

/-- Loop body of helpers.py result_combine: for each element reads
value = result.value, returns result_fail(result.value) on the first element
whose is_fail is true, otherwise appends the value to validResults; when the
sequence is exhausted returns result_ok(validResults). -/
def result_combine_loop : List PyVal → List PyVal → Except PyErr PyVal
  | [], validResults => Except.ok (result_ok (PyVal.list validResults))
  | result :: rest, validResults =>
    match getValueAttr result with
    | Except.error e => Except.error e
    | Except.ok value =>
      match is_fail result with
      | Except.error e => Except.error e
      | Except.ok true => Except.ok (result_fail value)
      | Except.ok false => result_combine_loop rest (validResults ++ [value])

/-- helpers.py result_combine: iterates the sequence with an initially empty
validResults accumulator. -/
def result_combine (results : List PyVal) : Except PyErr PyVal :=
  result_combine_loop results []

/-- helpers.py value_or: raises TypeError when the first argument is not a
Result instance; otherwise returns result.value unless is_fail(result), in
which case it returns the default. -/
def value_or (result default : PyVal) : Except PyErr PyVal :=
  if isResultInstance result = false then Except.error PyErr.typeError
  else
    match is_fail result with
    | Except.error e => Except.error e
    | Except.ok true => Except.ok default
    | Except.ok false => getValueAttr result

/-- helpers.py unwrap_or: result.value if isinstance(result, ResultInstance)
else default. -/
def unwrap_or (result default : PyVal) : PyVal :=
  match result with
  | PyVal.ok v => v
  | PyVal.fail v => v
  | _ => default

/-- _Ok.value_or method (base.py lines 161-175): returns self.value when it
is not None, otherwise the fallback argument (named result in the source). -/
def Ok_value_or (value result : PyVal) : PyVal :=
  match value with
  | PyVal.none => result
  | v => v

/-- _Nothing.__nothing__ (nothing.py lines 10-11): raises
RuntimeError("Nothing has no value"). -/
def nothingDeref : Except PyErr PyVal := Except.error PyErr.runtimeError

/-- Reading Nothing.value: the class attribute value = None (nothing.py
line 16), so the read succeeds and yields None. -/
def nothingValueAttr : Except PyErr PyVal := getValueAttr PyVal.nothingObj

/-- Payload of a success variant, for stating result_combine's output list;
junk (None) on anything that is not an Ok. -/
def okPayload : PyVal → PyVal
  | PyVal.ok v => v
  | _ => PyVal.none

/-- C1: the spec claims hash(Ok(v)) and hash(Fail(v)) always differ because
the hash incorporates the variant tag.  In the source BOTH __hash__ methods
compute hash((True, self.value)) (base.py lines 132 and 239), so the two
hashes coincide on every payload, contradicting the claim and the methods'
own docstrings. -/
theorem Ok_Fail_hash_always_equal : ∀ v : PyVal, Ok_hash v = Fail_hash v :=
  fun _ => rfl

/-- C3 counterexample: is_ok(None) raises AttributeError because None has no
isOk method; it does not return false as the claim states. -/
theorem is_ok_none_raises :
    is_ok PyVal.none = Except.error PyErr.attributeError ∧
    is_ok PyVal.none ≠ Except.ok false :=
  ⟨rfl, fun h => Except.noConfusion h⟩

/-- C3 (amended): on any non-Result input, is_result returns false and
unwrap_or returns the default without raising, while is_ok and is_fail raise
AttributeError rather than returning false. -/
theorem guards_nonresult_spec (x d : PyVal) (h : isResultInstance x = false) :
    is_result x = false ∧ unwrap_or x d = d ∧
    is_ok x = Except.error PyErr.attributeError ∧
    is_fail x = Except.error PyErr.attributeError := by
  cases x <;>
    simp_all [is_result, isResultInstance, unwrap_or, is_ok, is_fail,
      callIsOk, callIsFail]

/-- Witness for the amended C3 at x = None, d = 5. -/
theorem guards_nonresult_spec_witness :
    is_result PyVal.none = false ∧
    unwrap_or PyVal.none (PyVal.int 5) = PyVal.int 5 ∧
    is_ok PyVal.none = Except.error PyErr.attributeError ∧
    is_fail PyVal.none = Except.error PyErr.attributeError :=
  guards_nonresult_spec PyVal.none (PyVal.int 5) rfl

/-- C4: value_or raises TypeError exactly when its first argument is not a
Result instance; on an Ok it returns the payload, on a Fail the default. -/
theorem value_or_spec (r d : PyVal) :
    (value_or r d = Except.error PyErr.typeError ↔ isResultInstance r = false) ∧
    (∀ v, r = PyVal.ok v → value_or r d = Except.ok v) ∧
    (∀ v, r = PyVal.fail v → value_or r d = Except.ok d) := by
  refine ⟨?_, ?_, ?_⟩
  · cases r <;> simp [value_or, isResultInstance, is_fail, callIsFail, getValueAttr]
  · rintro v rfl; rfl
  · rintro v rfl; rfl

/-- Witness for C4 at the spec's own examples. -/
theorem value_or_spec_witness :
    value_or (PyVal.ok (PyVal.int 2)) (PyVal.int 5) = Except.ok (PyVal.int 2) ∧
    value_or (PyVal.fail (PyVal.str "e")) (PyVal.int 5) = Except.ok (PyVal.int 5) ∧
    value_or PyVal.none (PyVal.int 5) = Except.error PyErr.typeError :=
  ⟨(value_or_spec (PyVal.ok (PyVal.int 2)) (PyVal.int 5)).2.1 _ rfl,
   (value_or_spec (PyVal.fail (PyVal.str "e")) (PyVal.int 5)).2.2 _ rfl,
   ((value_or_spec PyVal.none (PyVal.int 5)).1).mpr rfl⟩

/-- C5: unwrap_or returns the raw payload of either Result variant and the
default on any non-Result input, never raising. -/
theorem unwrap_or_spec (r d : PyVal) :
    (∀ v, r = PyVal.ok v → unwrap_or r d = v) ∧
    (∀ v, r = PyVal.fail v → unwrap_or r d = v) ∧
    (isResultInstance r = false → unwrap_or r d = d) := by
  refine ⟨?_, ?_, ?_⟩
  · rintro v rfl; rfl
  · rintro v rfl; rfl
  · intro h; cases r <;> simp_all [unwrap_or, isResultInstance]

/-- Witness for C5 at the spec's own examples. -/
theorem unwrap_or_spec_witness :
    unwrap_or (PyVal.ok (PyVal.int 2)) (PyVal.int 5) = PyVal.int 2 ∧
    unwrap_or (PyVal.fail (PyVal.str "e")) (PyVal.int 5) = PyVal.str "e" ∧
    unwrap_or PyVal.none (PyVal.int 5) = PyVal.int 5 :=
  ⟨(unwrap_or_spec (PyVal.ok (PyVal.int 2)) (PyVal.int 5)).1 _ rfl,
   (unwrap_or_spec (PyVal.fail (PyVal.str "e")) (PyVal.int 5)).2.1 _ rfl,
   (unwrap_or_spec PyVal.none (PyVal.int 5)).2.2 rfl⟩

/-- C7: the value_or method of the success variant returns the payload when
it is not None and the fallback when the payload is None, unlike the free
value_or function, which returns the (None) payload for a success. -/
theorem Ok_value_or_spec (v f : PyVal) :
    (v ≠ PyVal.none → Ok_value_or v f = v) ∧
    Ok_value_or PyVal.none f = f ∧
    value_or (result_ok PyVal.none) f = Except.ok PyVal.none := by
  refine ⟨?_, rfl, rfl⟩
  intro h
  cases v
  case none => exact absurd rfl h
  all_goals rfl

/-- Witness for C7 at a non-None and at the None payload. -/
theorem Ok_value_or_spec_witness :
    Ok_value_or (PyVal.int 2) (PyVal.int 5) = PyVal.int 2 ∧
    Ok_value_or PyVal.none (PyVal.int 5) = PyVal.int 5 :=
  ⟨(Ok_value_or_spec (PyVal.int 2) (PyVal.int 5)).1 (fun h => PyVal.noConfusion h),
   (Ok_value_or_spec (PyVal.int 2) (PyVal.int 5)).2.1⟩

/-- C8: is_ok is true and is_fail false on result_ok(v), symmetrically for
result_fail(v), and on every Result exactly one of the two guards is true. -/
theorem guard_constructor_spec (v r : PyVal) (hr : isResultInstance r = true) :
    is_ok (result_ok v) = Except.ok true ∧
    is_fail (result_ok v) = Except.ok false ∧
    is_fail (result_fail v) = Except.ok true ∧
    is_ok (result_fail v) = Except.ok false ∧
    ((is_ok r = Except.ok true ∧ is_fail r = Except.ok false) ∨
     (is_ok r = Except.ok false ∧ is_fail r = Except.ok true)) := by
  refine ⟨rfl, rfl, rfl, rfl, ?_⟩
  cases r <;> simp_all [is_ok, is_fail, callIsOk, callIsFail, isResultInstance]

/-- Witness for C8 at v = 2 and r = Ok(None). -/
theorem guard_constructor_spec_witness :
    is_ok (result_ok (PyVal.int 2)) = Except.ok true ∧
    is_fail (result_fail (PyVal.str "e")) = Except.ok true :=
  ⟨(guard_constructor_spec (PyVal.int 2) (PyVal.ok PyVal.none) rfl).1,
   (guard_constructor_spec (PyVal.str "e") (PyVal.ok PyVal.none) rfl).2.2.1⟩

/-- C9 counterexample: reading the absence marker's value attribute returns
None, so not every extraction of its value raises. -/
theorem nothing_value_attr_returns :
    nothingValueAttr = Except.ok PyVal.none ∧
    nothingValueAttr ≠ Except.error PyErr.runtimeError :=
  ⟨rfl, fun h => Except.noConfusion h⟩

/-- C9 (amended): the dereference protocol method __nothing__ of the absence
marker raises an unrecoverable RuntimeError, while its value attribute
yields None without raising. -/
theorem nothing_deref_spec :
    nothingDeref = Except.error PyErr.runtimeError ∧
    nothingValueAttr = Except.ok PyVal.none :=
  ⟨rfl, rfl⟩

/-- C10: the Nothing singleton is not a Result instance, so unwrap_or falls
back to the default on it even though its value attribute reads as None. -/
theorem nothing_not_result_spec (d : PyVal) :
    is_result PyVal.nothingObj = false ∧
    unwrap_or PyVal.nothingObj d = d ∧
    getValueAttr PyVal.nothingObj = Except.ok PyVal.none :=
  ⟨rfl, rfl, rfl⟩

/-- All-success case of the combine loop: every payload is appended to the
accumulator in input order. -/
theorem result_combine_loop_all_ok (rs : List PyVal) (acc : List PyVal)
    (h : ∀ r ∈ rs, is_ok r = Except.ok true) :
    result_combine_loop rs acc =
      Except.ok (result_ok (PyVal.list (acc ++ rs.map okPayload))) := by
  revert h
  induction rs generalizing acc with
  | nil => intro _; simp [result_combine_loop]
  | cons r rest ih =>
    intro h
    have hr : is_ok r = Except.ok true := h r (List.mem_cons_self r rest)
    obtain ⟨v, rfl⟩ : ∃ v, r = PyVal.ok v := by
      cases r <;> simp_all [is_ok, callIsOk]
    simp only [result_combine_loop, getValueAttr, is_fail, callIsFail]
    rw [ih (acc ++ [v]) (fun x hx => h x (List.mem_cons_of_mem _ hx))]
    simp [okPayload, List.append_assoc]

/-- First-failure case of the combine loop: once a Fail element is reached
after an all-success prefix, the loop returns that failure payload and the
rest of the sequence is irrelevant. -/
theorem result_combine_loop_first_fail (pre suf acc : List PyVal) (v : PyVal)
    (h : ∀ r ∈ pre, is_ok r = Except.ok true) :
    result_combine_loop (pre ++ PyVal.fail v :: suf) acc =
      Except.ok (result_fail v) := by
  revert h
  induction pre generalizing acc with
  | nil =>
    intro _
    simp [result_combine_loop, getValueAttr, is_fail, callIsFail]
  | cons r rest ih =>
    intro h
    have hr : is_ok r = Except.ok true := h r (List.mem_cons_self r rest)
    obtain ⟨w, rfl⟩ : ∃ w, r = PyVal.ok w := by
      cases r <;> simp_all [is_ok, callIsOk]
    simp only [List.cons_append, result_combine_loop, getValueAttr, is_fail,
      callIsFail]
    exact ih (acc ++ [w]) (fun x hx => h x (List.mem_cons_of_mem _ hx))

/-- C2: a sequence of all-success Results combines to a success wrapping the
ordered list of payloads (the empty sequence included), and a sequence whose
first failure occurs after an all-success prefix combines to the failure
variant carrying that first failure's payload, whatever follows it. -/
theorem result_combine_spec (pre suf : List PyVal) (v : PyVal)
    (hpre : ∀ r ∈ pre, is_ok r = Except.ok true) :
    result_combine pre = Except.ok (result_ok (PyVal.list (pre.map okPayload))) ∧
    result_combine (pre ++ PyVal.fail v :: suf) = Except.ok (result_fail v) := by
  constructor
  · have h := result_combine_loop_all_ok pre [] hpre
    simpa [result_combine] using h
  · exact result_combine_loop_first_fail pre suf [] v hpre

/-- Witness for C2 at the spec's examples: combining two successes, and a
success followed by a failure and a trailing success. -/
theorem result_combine_spec_witness :
    result_combine [PyVal.ok (PyVal.int 1), PyVal.ok (PyVal.int 2)] =
      Except.ok (PyVal.ok (PyVal.list [PyVal.int 1, PyVal.int 2])) ∧
    result_combine
        [PyVal.ok (PyVal.int 1), PyVal.fail (PyVal.str "e"), PyVal.ok (PyVal.int 2)] =
      Except.ok (PyVal.fail (PyVal.str "e")) :=
  ⟨(result_combine_spec [PyVal.ok (PyVal.int 1), PyVal.ok (PyVal.int 2)] []
      PyVal.none
      (by intro r hr
          simp only [List.mem_cons, List.not_mem_nil, or_false] at hr
          rcases hr with rfl | rfl <;> rfl)).1,
   (result_combine_spec [PyVal.ok (PyVal.int 1)] [PyVal.ok (PyVal.int 2)]
      (PyVal.str "e")
      (by intro r hr
          simp only [List.mem_cons, List.not_mem_nil, or_false] at hr
          rcases hr with rfl
          rfl)).2⟩

/-- C6: result_equality is true exactly when both arguments are the same
variant with Python-equal payloads; the == operator agrees with it whenever
both arguments are Results; comparing across variants is always false; and
any non-Result argument makes result_equality false. -/
theorem result_equality_spec (a b : PyVal) :
    (result_equality a b = true ↔
      ((∃ x y, a = PyVal.ok x ∧ b = PyVal.ok y ∧ pyEq x y = true) ∨
       (∃ x y, a = PyVal.fail x ∧ b = PyVal.fail y ∧ pyEq x y = true))) ∧
    (isResultInstance a = true → isResultInstance b = true →
      pyEq a b = result_equality a b) ∧
    (∀ x y, pyEq (PyVal.ok x) (PyVal.fail y) = false ∧
            pyEq (PyVal.fail x) (PyVal.ok y) = false) ∧
    (isResultInstance a = false ∨ isResultInstance b = false →
      result_equality a b = false) := by
  refine ⟨?_, ?_, ?_, ?_⟩
  · cases a <;> cases b <;> simp [result_equality]
  · cases a <;> cases b <;> simp [result_equality, pyEq, isResultInstance]
  · intro x y; constructor <;> simp [pyEq]
  · cases a <;> cases b <;> simp [result_equality, isResultInstance]

/-- Witness for C6: the == model agrees with result_equality on a concrete
cross-variant pair of Results with equal payloads. -/
theorem result_equality_spec_witness :
    pyEq (PyVal.ok (PyVal.int 2)) (PyVal.fail (PyVal.int 2)) =
      result_equality (PyVal.ok (PyVal.int 2)) (PyVal.fail (PyVal.int 2)) :=
  (result_equality_spec (PyVal.ok (PyVal.int 2)) (PyVal.fail (PyVal.int 2))).2.1
    rfl rfl
